import Mathlib

/-
  Verification development for the Adaptive Research & Innovation Agent Ecosystem.

  Shallow embedding of the core pipeline:
    * AnalysisAgent.analyze_data_and_generate_insights (src/agents/analysis_agent.py)
    * the refinement orchestration loop in get_innovation_ideas (src/api/main.py)
    * InnovationAgent.generate_ideas_from_insights response parsing (src/agents/innovation_agent.py)
    * ResearchAgent.gather_and_preprocess_data fetch-count logic (src/agents/research_agent.py)

  Python dictionaries holding insight records are embedded as a single structure
  covering the union of the keys that the code reads or writes; a key that a given
  record does not carry is modelled as `none` / `[]` (the code only ever accesses
  keys through .get with a default, so this is faithful).  External effects
  (sklearn TF-IDF / KMeans, the HTTP fetches, the generative backend, json.loads)
  are passed in as explicit oracle functions; an oracle returning `none` models the
  corresponding Python call raising an exception (which the code catches).
  Python floats are embedded as rationals: every score the code manipulates is
  produced by exact literals, +, /, and min, so the arithmetic agrees.
-/

/-- Embedding of a Python dict used as an insight record.  Per-item insights
(analysis_agent.py lines 66-74) carry no "type" key, hence `type := none`;
aggregate records carry `type := some ...`. -/
structure Insight where
  type : Option String := none
  source : Option String := none
  title : Option String := none
  insight_summary : Option String := none
  extracted_keywords : List String := []
  named_entities : List String := []
  data_source_url : Option String := none
  relevance_score : Option ℚ := none
  description : Option String := none
  overall_top_terms : List String := []
  num_clusters_identified : Option Nat := none
  insight_quality_score : Option ℚ := none
deriving DecidableEq, Repr

/-- Embedding of an idea dict returned by the generative backend
(innovation_agent.py): fields are read with .get and may be absent. -/
structure Idea where
  title : Option String := none
  brief_description : Option String := none
  potential_impact : Option String := none
deriving DecidableEq, Repr

/-- Embedding of one element of the research_data list received by the analysis
agent.  Python is dynamically typed here: an element may fail isinstance(item,
dict) (silently skipped, lines 45-47), may be a dict whose processing raises
(e.g. a None title sliced at the debug-log line, caught at lines 76-79 and
skipped before any text is accumulated), or may process normally. -/
inductive RawItem where
  | nonDict
  | badDict
  | good (source title summary content url : String)
deriving DecidableEq, Repr

-- ----------------------------------------------------------------
-- String helpers (kernel-reducible versions of the Python string ops used)
-- ----------------------------------------------------------------

/-- Lower-casing, as str.lower (ASCII-faithful). -/
def lowerStr (s : String) : String := String.mk (s.toList.map Char.toLower)

/-- Python str[:n]. -/
def takeStr (n : Nat) (s : String) : String := String.mk (s.toList.take n)

/-- Whitespace split dropping empty fields, as Python str.split(). -/
def splitWSAux : List Char → List Char → List String
  | [], acc => if acc.isEmpty then [] else [String.mk acc.reverse]
  | c :: cs, acc =>
      if c.isWhitespace then
        (if acc.isEmpty then [] else [String.mk acc.reverse]) ++ splitWSAux cs []
      else
        splitWSAux cs (c :: acc)

def splitWS (s : String) : List String := splitWSAux s.toList []

/-- Python str.isalnum(): non-empty and every character alphanumeric. -/
def isAlnumStr (w : String) : Bool := !w.isEmpty && w.toList.all Char.isAlphanum

-- ----------------------------------------------------------------
-- AnalysisAgent.analyze_data_and_generate_insights (analysis_agent.py 27-148)
-- ----------------------------------------------------------------

/-- Stop-word list of analysis_agent.py line 61. -/
def basic_stop_words : List String :=
  ["a", "an", "the", "is", "are", "and", "or", "in", "of", "to", "for", "on", "with", "by"]

/-- Tokenisation and filtering of lines 60-62. -/
def filteredWords (full_text : String) : List String :=
  (splitWS full_text).filter (fun w => isAlnumStr w && !(basic_stop_words.contains w))

/-- Lowercased concatenation of line 56. -/
def fullTextOf (title summary content : String) : String :=
  lowerStr (title ++ " " ++ summary ++ " " ++ content)

/-- Text contributed by an item to all_text_content (line 57); items that are
skipped (non-dict, or raising during per-item processing) contribute nothing. -/
def itemText : RawItem → Option String
  | .good _ title summary content _ => some (fullTextOf title summary content)
  | _ => none

/-- Per-item insight record of lines 66-75.  list(set(filtered_words[:5])) is
embedded as dedup of the first five tokens; CPython set iteration order is
unspecified, and no claim depends on the ordering of extracted_keywords. -/
def itemInsight : RawItem → Option Insight
  | .good source title summary content url =>
      some { source := some source,
             title := some title,
             insight_summary := some ("Key takeaway: " ++ takeStr 150 summary ++ "..."),
             extracted_keywords := ((filteredWords (fullTextOf title summary content)).take 5).dedup,
             named_entities := [],
             data_source_url := some url,
             relevance_score := some (1/2) }
  | _ => none

/-- Predicate of the final aggregate lookup, lines 130 and main.py 406-409:
type is "overall_trend_analysis" or "overall_analysis_summary". -/
def isOverallAnalysisType (i : Insight) : Bool :=
  i.type == some "overall_trend_analysis" || i.type == some "overall_analysis_summary"

/-- Any of the three aggregate record types the extractor can emit. -/
def isAggregateType (i : Insight) : Bool :=
  i.type == some "overall_trend_analysis" || i.type == some "overall_summary" ||
    i.type == some "overall_analysis_summary"

/-- In-place score mutation of line 140: the first record satisfying the
overall-analysis lookup gets its insight_quality_score replaced. -/
def setScoreFirstOverall (s : ℚ) : List Insight → List Insight
  | [] => []
  | i :: is =>
      if isOverallAnalysisType i then { i with insight_quality_score := some s } :: is
      else i :: setScoreFirstOverall s is

/-- Record appended at analysis_agent.py line 38 when research_data is empty. -/
def emptyDataInsight : Insight :=
  { type := some "overall_analysis_summary",
    description := some "No data found for initial analysis.",
    insight_quality_score := some (1/10) }

/-- The overall_trend_insight dict of lines 106-111. -/
def trendInsight (overall_top_terms : List String) (num_clusters : Nat) : Insight :=
  { type := some "overall_trend_analysis",
    description := some "Identified major themes and important terms across all collected data using TF-IDF and KMeans.",
    overall_top_terms := overall_top_terms,
    num_clusters_identified := some num_clusters }

/-- The simple_overall_insight dict of lines 115-119. -/
def simpleOverallInsight (overall_top_terms : List String) : Insight :=
  { type := some "overall_summary",
    description := some "Identified most frequent and important terms in the collected data using TF-IDF.",
    overall_top_terms := overall_top_terms }

/-- Record appended at line 144 when no overall-analysis record was found. -/
def fallbackOverallInsight : Insight :=
  { type := some "overall_analysis_summary",
    description := some "No overall themes identified due to lack of data.",
    insight_quality_score := some (1/20) }

/-- Embedding of AnalysisAgent.analyze_data_and_generate_insights.  The
sklearn TF-IDF/KMeans block (lines 84-124) is abstracted by the oracle
tfidfTopTerms: given all_text_content it returns some overall_top_terms
(the list built at lines 93-99) when the whole try block succeeds, and none
when any sklearn call raises (the except at lines 122-124 then appends
nothing).  num_clusters is computed by the Python code itself (line 102). -/
def analyze_data_and_generate_insights
    (tfidfTopTerms : List String → Option (List String)) (research_data : List RawItem) :
    List Insight :=
  if research_data.isEmpty then
    [emptyDataInsight]
  else
    let all_text_content := research_data.filterMap itemText
    let perItemInsights := research_data.filterMap itemInsight
    let insights :=
      if 1 < all_text_content.length then
        match tfidfTopTerms all_text_content with
        | none => perItemInsights
        | some overall_top_terms =>
            let num_clusters := min all_text_content.length 3
            if 2 ≤ num_clusters then
              perItemInsights ++ [trendInsight overall_top_terms num_clusters]
            else if !overall_top_terms.isEmpty then
              perItemInsights ++ [simpleOverallInsight overall_top_terms]
            else
              perItemInsights
      else
        perItemInsights
    match insights.find? isOverallAnalysisType with
    | some agg =>
        if agg.type == some "overall_trend_analysis" || !agg.overall_top_terms.isEmpty then
          setScoreFirstOverall
            (min 1 ((insights.length : ℚ) / 10 + (agg.overall_top_terms.length : ℚ) / 10 +
              ((agg.num_clusters_identified.getD 0 : Nat) : ℚ) / 3))
            insights
        else
          insights
    | none =>
        insights ++ [fallbackOverallInsight]

-- ----------------------------------------------------------------
-- Refinement orchestration: get_innovation_ideas (api/main.py 356-461)
-- ----------------------------------------------------------------

/-- Constant of main.py line 42. -/
def REFINEMENT_THRESHOLD : ℚ := 1/2

/-- Constant of main.py line 43. -/
def MAX_REFINEMENT_ITERATIONS : Nat := 1

/-- Query-rewrite suffix of main.py lines 430-432. -/
def refinementSuffix : String :=
  " more details on current trends, potential gaps, or contradictions for deeper analysis."

/-- Quality evaluation of main.py lines 405-410: first record (in list order)
whose type is overall_trend_analysis or overall_analysis_summary; its
insight_quality_score with default 0.0, or 0.0 when no such record exists. -/
def insightQualityOf (current_insights : List Insight) : ℚ :=
  match current_insights.find? isOverallAnalysisType with
  | some i => i.insight_quality_score.getD 0
  | none => 0

/-- Observable events of one iteration of the orchestration loop. -/
structure IterRecord where
  queryUsed : String
  genArg : List Insight
  score : ℚ
  ideasReturned : List Idea
  finalIdeasAfter : List Idea
  reportCall : Option (List Idea × String)
deriving DecidableEq, Repr

/-- Embedding of the loop body of main.py lines 379-438.  fetchInsights models
the Analysis-Agent HTTP call (insights returned for a given analysis query at a
given iteration); genIdeas models the generative backend inside
generate_ideas_from_insights at a given iteration (the argument actually passed
to it is recorded in genArg).  Exceptions would propagate out of the endpoint
(lines 440-450), so the trace models the non-raising executions.  fuel is
the number of loop entries still allowed by range(MAX_REFINEMENT_ITERATIONS+1). -/
def orchLoop (maxIter : Nat) (fetchInsights : String → Nat → List Insight)
    (genIdeas : Nat → List Idea) (query : String) :
    Nat → Nat → List Insight → String → List Idea → List IterRecord × List Idea
  | _, 0, _, _, finalIdeas => ([], finalIdeas)
  | iteration, fuel + 1, current_insights, current_analysis_query, finalIdeas =>
      let new_insights := fetchInsights current_analysis_query iteration
      let current_insights :=
        if iteration == 0 then new_insights else current_insights ++ new_insights
      let insight_quality_score := insightQualityOf current_insights
      let generated_ideas := genIdeas iteration
      let finalIdeas := if generated_ideas.isEmpty then finalIdeas else generated_ideas
      let reportCall :=
        if generated_ideas.isEmpty then none else some (generated_ideas, query)
      let r : IterRecord :=
        { queryUsed := current_analysis_query, genArg := current_insights,
          score := insight_quality_score, ideasReturned := generated_ideas,
          finalIdeasAfter := finalIdeas, reportCall := reportCall }
      if iteration < maxIter ∧ insight_quality_score < REFINEMENT_THRESHOLD then
        let rest := orchLoop maxIter fetchInsights genIdeas query (iteration + 1) fuel
          current_insights (query ++ refinementSuffix) finalIdeas
        (r :: rest.1, rest.2)
      else
        ([r], finalIdeas)

/-- One orchestration call of get_innovation_ideas: per-iteration trace. -/
def orchTrace (fetchInsights : String → Nat → List Insight) (genIdeas : Nat → List Idea)
    (query : String) : List IterRecord :=
  (orchLoop MAX_REFINEMENT_ITERATIONS fetchInsights genIdeas query
    0 (MAX_REFINEMENT_ITERATIONS + 1) [] query []).1

/-- One orchestration call of get_innovation_ideas: resulting final_ideas. -/
def orchFinalIdeas (fetchInsights : String → Nat → List Insight) (genIdeas : Nat → List Idea)
    (query : String) : List Idea :=
  (orchLoop MAX_REFINEMENT_ITERATIONS fetchInsights genIdeas query
    0 (MAX_REFINEMENT_ITERATIONS + 1) [] query []).2

/-- Analysis query actually used at iteration j: the original topic at
iteration 0, the rewritten query (main.py 430-432) at every later iteration. -/
def analysisQueryAt (query : String) : Nat → String
  | 0 => query
  | _ + 1 => query ++ refinementSuffix

/-- Entire accumulated insight list after the fetch of iteration k (main.py
400-403): the concatenation, in iteration order, of everything the Analysis
Agent returned at iterations 0..k. -/
def accumulatedInsights (fetchInsights : String → Nat → List Insight) (query : String)
    (k : Nat) : List Insight :=
  ((List.range (k + 1)).map (fun j => fetchInsights (analysisQueryAt query j) j)).flatten

-- ----------------------------------------------------------------
-- InnovationAgent.generate_ideas_from_insights response handling
-- (innovation_agent.py 34-115)
-- ----------------------------------------------------------------

/-- Python values produced by json.loads. -/
inductive PyVal where
  | none
  | bool (b : Bool)
  | num (q : ℚ)
  | str (s : String)
  | list (xs : List PyVal)
  | dict (fields : List (String × PyVal))

/-- Whether a Python value is a list (isinstance(x, list)). -/
def PyVal.isList : PyVal → Bool
  | .list _ => true
  | _ => false

def trimChars (cs : List Char) : List Char :=
  ((cs.dropWhile Char.isWhitespace).reverse.dropWhile Char.isWhitespace).reverse

/-- Python str.strip(). -/
def stripStr (s : String) : String := String.mk (trimChars s.toList)

/-- Code-fence removal of innovation_agent.py lines 94-95: when the stripped
text starts with a triple-backtick json marker and ends with a triple backtick,
keep stripped_text[7:-3] re-stripped; otherwise the text is left unchanged. -/
def stripFence (generated_content : String) : String :=
  let t := trimChars generated_content.toList
  if ("```json".toList).isPrefixOf t && ("```".toList).isSuffixOf t then
    let u := t.drop 7
    String.mk (trimChars (u.take (u.length - 3)))
  else
    generated_content

/-- Embedding of the response handling of generate_ideas_from_insights
(innovation_agent.py 34-115).  loads models json.loads (none = raises
JSONDecodeError); backendText models response.text of the Gemini call (none =
the call itself raised).  Both exception paths are caught at lines 110-115 and
return [].  The returned Python value is the value of the Python variable
ideas at the return statement: note that for a dict containing key "ideas"
the code returns ideas["ideas"] without checking that it is a list. -/
def generate_ideas_from_insights (loads : String → Option PyVal) (insights : List Insight)
    (backendText : Option String) : PyVal :=
  if insights.isEmpty then PyVal.list [] else
  match backendText with
  | Option.none => PyVal.list []
  | Option.some generated_content =>
      let generated_content := stripFence generated_content
      match loads generated_content with
      | Option.none => PyVal.list []
      | Option.some ideas =>
          match ideas with
          | PyVal.list xs => PyVal.list xs
          | PyVal.dict fields =>
              match fields.lookup "ideas" with
              | Option.some v => v
              | Option.none => PyVal.list []
          | _ => PyVal.list []

-- ----------------------------------------------------------------
-- ResearchAgent.gather_and_preprocess_data (research_agent.py 19-64)
-- ----------------------------------------------------------------

/-- Fixed NewsAPI quota of research_agent.py line 34. -/
def news_api_target_count : ℤ := 5

/-- ArXiv request count of research_agent.py lines 36-40:
max(1, min(max(0, count - 5), 5)). -/
def arxiv_individual_count (count : ℤ) : ℤ :=
  max 1 (min (max 0 (count - news_api_target_count)) 5)

/-- Embedding of gather_and_preprocess_data.  newsFetch and arxivFetch model
the two client calls (each already returns [] on its own network errors, and
the surrounding try/except likewise contributes zero items on a raise, so a
failing source is a fetch function returning []).  The first component is the
returned list, the second the log of (source, requested count) in call order. -/
def gather_and_preprocess_data (newsFetch : ℤ → List RawItem) (arxivFetch : ℤ → List RawItem)
    (count : ℤ) : List RawItem × List (String × ℤ) :=
  (newsFetch news_api_target_count ++ arxivFetch (arxiv_individual_count count),
   [("NewsAPI", news_api_target_count), ("ArXiv", arxiv_individual_count count)])

-- ----------------------------------------------------------------
-- Top-term selection of analysis_agent.py lines 92-99
-- ----------------------------------------------------------------

/-- Insertion step for an index/weight pair, ordering by weight ascending with
ties broken by index. -/
def insertByWeight (p : Nat × ℚ) : List (Nat × ℚ) → List (Nat × ℚ)
  | [] => [p]
  | x :: xs =>
      if p.2 < x.2 ∨ (p.2 = x.2 ∧ p.1 ≤ x.1) then p :: x :: xs
      else x :: insertByWeight p xs

def sortByWeightAsc : List (Nat × ℚ) → List (Nat × ℚ)
  | [] => []
  | p :: ps => insertByWeight p (sortByWeightAsc ps)

/-- np.argsort(sums_tfidf) of line 96: index permutation sorting the weights
in ASCENDING order.  numpy's default sort leaves tie order unspecified; ties
are broken here by index, and every input used below has pairwise-distinct
weights, where all argsorts agree. -/
def argsortAsc (sums_tfidf : List ℚ) : List Nat :=
  (sortByWeightAsc sums_tfidf.enum).map Prod.fst

/-- Lines 93-99: overall_top_terms is feature_names indexed by the FIRST TEN
entries of np.argsort(sums_tfidf), i.e. the ten lowest-weight indices in
ascending weight order. -/
def overallTopTermsOf (feature_names : List String) (sums_tfidf : List ℚ) : List String :=
  ((argsortAsc sums_tfidf).take 10).filterMap (fun i => feature_names.get? i)

/-- Modelled from the spec (claim C6): the ten terms of highest aggregate
weight, in descending order of that weight (ties broken by index). -/
def insertByWeightDesc (p : Nat × ℚ) : List (Nat × ℚ) → List (Nat × ℚ)
  | [] => [p]
  | x :: xs =>
      if x.2 < p.2 ∨ (p.2 = x.2 ∧ p.1 ≤ x.1) then p :: x :: xs
      else x :: insertByWeightDesc p xs

def sortByWeightDesc : List (Nat × ℚ) → List (Nat × ℚ)
  | [] => []
  | p :: ps => insertByWeightDesc p (sortByWeightDesc ps)

/-- Modelled from the spec (claim C6): top ten terms by aggregate weight,
descending. -/
def topTermsByWeightDesc (feature_names : List String) (sums_tfidf : List ℚ) : List String :=
  (((sortByWeightDesc sums_tfidf.enum).map Prod.fst).take 10).filterMap
    (fun i => feature_names.get? i)

-- ----------------------------------------------------------------
-- Specification-side definitions for comparison with the code
-- ----------------------------------------------------------------

/-- Modelled from the spec (claim C3): the score of the MOST RECENT (last in
insertion order) overall-analysis record, default 0.0. -/
def lastOverallAnalysisScore (ins : List Insight) : ℚ :=
  match (ins.filter isOverallAnalysisType).getLast? with
  | some i => i.insight_quality_score.getD 0
  | none => 0

/-- Modelled from the spec (claim C7): min(1.0, insight_count/10 +
len(top_terms)/10 + num_clusters/3) with insight_count the number of PER-ITEM
insights produced in the invocation. -/
def claimTrendScore (insight_count top_terms_count num_clusters : Nat) : ℚ :=
  min 1 ((insight_count : ℚ) / 10 + (top_terms_count : ℚ) / 10 + (num_clusters : ℚ) / 3)

-- ----------------------------------------------------------------
-- Concrete inputs used by counterexamples and witnesses
-- ----------------------------------------------------------------

def tfNone : List String → Option (List String) := fun _ => none

def tfOneTerm : List String → Option (List String) := fun _ => some ["term"]

def c7items : List RawItem :=
  [RawItem.good "NewsAPI" "T1" "S1" "C1" "u1", RawItem.good "ArXiv" "T2" "S2" "C2" "u2"]

def c3summaryInsight : Insight :=
  { type := some "overall_analysis_summary", insight_quality_score := some (1/5) }

def c3trendInsight : Insight :=
  { type := some "overall_trend_analysis", insight_quality_score := some (9/10) }

/-- Accumulated list holding two overall-analysis records with distinct
scores: the shape current_insights has after a refinement iteration, when the
iteration-0 aggregate (score 0.2) is followed by the iteration-1 aggregate
(score 0.9). -/
def c3ex : List Insight := [c3summaryInsight, c3trendInsight]

/-- Analysis results by iteration realising c3ex inside the orchestrator. -/
def c3fetch : String → Nat → List Insight :=
  fun _ iteration => if iteration = 0 then [c3summaryInsight] else [c3trendInsight]

def wfetch : String → Nat → List Insight := fun _ _ => []

def wgen : Nat → List Idea := fun _ => []

def wIdea : Idea := { title := some "t" }

def wgenOne : Nat → List Idea := fun _ => [wIdea]

def c8insights : List Insight := [emptyDataInsight]

/-- Backend text whose JSON decoding yields a dict binding "ideas" to a
string (the braces are written with escapes). -/
def c8text : String := "\x7b\"ideas\": \"foo\"\x7d"

/-- json.loads on that text: the dict value, with "ideas" bound to a string. -/
def c8loads : String → Option PyVal :=
  fun s => if s = c8text then some (PyVal.dict [("ideas", PyVal.str "foo")]) else none

/-- json.loads on malformed text: always raises. -/
def c8loadsFail : String → Option PyVal := fun _ => none

def c6names : List String := ["low", "mid", "high"]

def c6sums : List ℚ := [1, 2, 3]

/-- The per-item insight the extractor produces for the first item of c7items. -/
def c10r : Insight :=
  { source := some "NewsAPI", title := some "T1",
    insight_summary := some "Key takeaway: S1...",
    extracted_keywords := ["t1", "s1", "c1"],
    named_entities := [],
    data_source_url := some "u1",
    relevance_score := some (1/2) }

/-- Iteration-0 record of the trace for the all-empty oracles. -/
def wr1 : IterRecord :=
  { queryUsed := "ai", genArg := [], score := 0, ideasReturned := [],
    finalIdeasAfter := [], reportCall := none }

/-- Iteration-0 record of the trace for empty fetches and a one-idea generator. -/
def wr2 : IterRecord :=
  { queryUsed := "ai", genArg := [], score := 0, ideasReturned := [wIdea],
    finalIdeasAfter := [wIdea], reportCall := some ([wIdea], "ai") }

-- ================================================================
-- Helper lemmas on the analysis agent
-- ================================================================

theorem mem_perItem_fields {l : List RawItem} {i : Insight}
    (h : i ∈ l.filterMap itemInsight) :
    i.type = none ∧ i.named_entities = [] ∧ i.relevance_score = some (1/2) := by
  rcases List.mem_filterMap.mp h with ⟨x, _, hx⟩
  cases x with
  | nonDict => simp [itemInsight] at hx
  | badDict => simp [itemInsight] at hx
  | good s t su c u =>
      simp only [itemInsight, Option.some.injEq] at hx
      subst hx
      exact ⟨rfl, rfl, rfl⟩

theorem perItem_find_overall_eq_none (l : List RawItem) :
    (l.filterMap itemInsight).find? isOverallAnalysisType = none := by
  rw [List.find?_eq_none]
  intro x hx
  simp [isOverallAnalysisType, (mem_perItem_fields hx).1]

theorem perItem_filter_eq_nil (l : List RawItem) (p : Insight → Bool)
    (hp : ∀ i, i.type = none → p i = false) :
    (l.filterMap itemInsight).filter p = [] := by
  rw [List.filter_eq_nil_iff]
  intro a ha
  simp [hp a (mem_perItem_fields ha).1]

theorem setScore_append_not_overall (s : ℚ) (l : List Insight) (a : Insight)
    (hl : ∀ x ∈ l, isOverallAnalysisType x = false) :
    setScoreFirstOverall s (l ++ [a]) =
      l ++ [if isOverallAnalysisType a then { a with insight_quality_score := some s } else a] := by
  induction l with
  | nil =>
      cases h : isOverallAnalysisType a <;>
        simp [setScoreFirstOverall, h]
  | cons x xs ih =>
      have hx : isOverallAnalysisType x = false := hl x (by simp)
      simp only [List.cons_append, setScoreFirstOverall, hx, Bool.false_eq_true, if_false,
        List.cons.injEq, true_and]
      exact ih (fun y hy => hl y (by simp [hy]))

theorem isOverall_trendInsight (ts : List String) (k : Nat) :
    isOverallAnalysisType (trendInsight ts k) = true := rfl

theorem trendInsight_type (ts : List String) (k : Nat) :
    (trendInsight ts k).type = some "overall_trend_analysis" := rfl

theorem trendInsight_top_terms (ts : List String) (k : Nat) :
    (trendInsight ts k).overall_top_terms = ts := rfl

theorem trendInsight_clusters (ts : List String) (k : Nat) :
    (trendInsight ts k).num_clusters_identified = some k := rfl

theorem analyze_of_no_agg (tf : List String → Option (List String)) (rd : List RawItem)
    (h : rd ≠ [])
    (h2 : ¬ 1 < (rd.filterMap itemText).length ∨ tf (rd.filterMap itemText) = none) :
    analyze_data_and_generate_insights tf rd =
      rd.filterMap itemInsight ++ [fallbackOverallInsight] := by
  have hne : rd.isEmpty = false := by simpa [List.isEmpty_iff] using h
  rcases h2 with h2 | h2
  · simp only [analyze_data_and_generate_insights, hne, Bool.false_eq_true, if_false, h2,
      perItem_find_overall_eq_none]
  · by_cases hl : 1 < (rd.filterMap itemText).length
    · simp only [analyze_data_and_generate_insights, hne, Bool.false_eq_true, if_false, hl,
        if_true, h2, perItem_find_overall_eq_none]
    · simp only [analyze_data_and_generate_insights, hne, Bool.false_eq_true, if_false, hl,
        perItem_find_overall_eq_none]

theorem analyze_of_agg (tf : List String → Option (List String)) (rd : List RawItem)
    (ts : List String) (h : rd ≠ []) (hlen : 1 < (rd.filterMap itemText).length)
    (htf : tf (rd.filterMap itemText) = some ts) :
    analyze_data_and_generate_insights tf rd =
      setScoreFirstOverall
        (min 1
          (((rd.filterMap itemInsight ++
              [trendInsight ts (min (rd.filterMap itemText).length 3)]).length : ℚ) / 10 +
            (ts.length : ℚ) / 10 + ((min (rd.filterMap itemText).length 3 : Nat) : ℚ) / 3))
        (rd.filterMap itemInsight ++ [trendInsight ts (min (rd.filterMap itemText).length 3)]) := by
  have hne : rd.isEmpty = false := by simpa [List.isEmpty_iff] using h
  have hcl : 2 ≤ min (rd.filterMap itemText).length 3 := le_min (by omega) (by norm_num)
  simp only [analyze_data_and_generate_insights, hne, Bool.false_eq_true, if_false, hlen,
    if_true, htf, hcl, List.find?_append, perItem_find_overall_eq_none, Option.none_or,
    List.find?_cons, isOverall_trendInsight, trendInsight_type, trendInsight_top_terms,
    trendInsight_clusters, Option.getD_some, beq_self_eq_true, Bool.true_or]

theorem aggType_false_of_type_none (i : Insight) (h : i.type = none) :
    isAggregateType i = false := by
  simp [isAggregateType, h]

theorem overall_false_of_type_none (i : Insight) (h : i.type = none) :
    isOverallAnalysisType i = false := by
  simp [isOverallAnalysisType, h]

theorem isAggregateType_fallback : isAggregateType fallbackOverallInsight = true := rfl

theorem isAggregateType_trend_update (ts : List String) (k : Nat) (s : ℚ) :
    isAggregateType { trendInsight ts k with insight_quality_score := some s } = true := rfl

-- ================================================================
-- Claims C4, C5, C10, C7 (Insight Extractor)
-- ================================================================

/-- Claim C5: called on the empty input list, the Insight Extractor returns
exactly one record, of type "overall_analysis_summary", whose
insight_quality_score equals 0.1 (= 1/10); this is a normal return value. -/
theorem claim_C5_extract_empty (tf : List String → Option (List String)) :
    (analyze_data_and_generate_insights tf []).length = 1 ∧
    ∀ r ∈ analyze_data_and_generate_insights tf [],
      r.type = some "overall_analysis_summary" ∧ r.insight_quality_score = some (1/10) := by
  constructor
  · rfl
  · intro r hr
    simp only [analyze_data_and_generate_insights, List.isEmpty_nil, if_true,
      List.mem_singleton] at hr
    subst hr
    exact ⟨rfl, rfl⟩

theorem claim_C5_witness :
    (analyze_data_and_generate_insights tfNone []).length = 1 ∧
    (emptyDataInsight.type = some "overall_analysis_summary" ∧
      emptyDataInsight.insight_quality_score = some (1/10)) :=
  ⟨(claim_C5_extract_empty tfNone).1,
    (claim_C5_extract_empty tfNone).2 emptyDataInsight
      (by rw [show analyze_data_and_generate_insights tfNone [] = [emptyDataInsight] from rfl]
          exact List.mem_singleton.mpr rfl)⟩

/-- Claim C4: for every non-empty input list, the Insight Extractor returns a
list of length at least 1 containing exactly one record of aggregate type
("overall_trend_analysis", "overall_summary" or "overall_analysis_summary"):
never zero and never more than one. -/
theorem claim_C4_exactly_one_aggregate (tf : List String → Option (List String))
    (research_data : List RawItem) (h : research_data ≠ []) :
    1 ≤ (analyze_data_and_generate_insights tf research_data).length ∧
    ((analyze_data_and_generate_insights tf research_data).filter isAggregateType).length = 1 := by
  by_cases hl : 1 < (research_data.filterMap itemText).length
  · cases htf : tf (research_data.filterMap itemText) with
    | none =>
        rw [analyze_of_no_agg tf research_data h (Or.inr htf)]
        refine ⟨by simp, ?_⟩
        rw [List.filter_append, perItem_filter_eq_nil _ _ aggType_false_of_type_none]
        simp [isAggregateType_fallback]
    | some ts =>
        rw [analyze_of_agg tf research_data ts h hl htf]
        rw [setScore_append_not_overall _ _ _
          (fun x hx => overall_false_of_type_none x (mem_perItem_fields hx).1)]
        rw [isOverall_trendInsight, if_pos rfl]
        refine ⟨by simp, ?_⟩
        rw [List.filter_append, perItem_filter_eq_nil _ _ aggType_false_of_type_none]
        simp [isAggregateType_trend_update]
  · rw [analyze_of_no_agg tf research_data h (Or.inl hl)]
    refine ⟨by simp, ?_⟩
    rw [List.filter_append, perItem_filter_eq_nil _ _ aggType_false_of_type_none]
    simp [isAggregateType_fallback]

theorem claim_C4_witness :
    c7items ≠ [] ∧
    (1 ≤ (analyze_data_and_generate_insights tfNone c7items).length ∧
      ((analyze_data_and_generate_insights tfNone c7items).filter isAggregateType).length = 1) :=
  ⟨by simp [c7items], claim_C4_exactly_one_aggregate tfNone c7items (by simp [c7items])⟩

/-- Claim C10: every per-item insight record produced by the Insight Extractor
(the records carrying no "type" key) has named_entities = [] and
relevance_score = 0.5 (= 1/2), for every input. -/
theorem claim_C10_constant_fields (tf : List String → Option (List String))
    (research_data : List RawItem) :
    ∀ r ∈ analyze_data_and_generate_insights tf research_data,
      r.type = none → r.named_entities = [] ∧ r.relevance_score = some (1/2) := by
  intro r hr htype
  by_cases h : research_data = []
  · subst h
    simp only [analyze_data_and_generate_insights, List.isEmpty_nil, if_true,
      List.mem_singleton] at hr
    subst hr
    simp [emptyDataInsight] at htype
  · by_cases hl : 1 < (research_data.filterMap itemText).length
    · cases htf : tf (research_data.filterMap itemText) with
      | none =>
          rw [analyze_of_no_agg tf research_data h (Or.inr htf)] at hr
          rcases List.mem_append.mp hr with hr | hr
          · exact (mem_perItem_fields hr).2
          · rw [List.mem_singleton] at hr
            subst hr
            simp [fallbackOverallInsight] at htype
      | some ts =>
          rw [analyze_of_agg tf research_data ts h hl htf] at hr
          rw [setScore_append_not_overall _ _ _
            (fun x hx => overall_false_of_type_none x (mem_perItem_fields hx).1)] at hr
          rw [isOverall_trendInsight, if_pos rfl] at hr
          rcases List.mem_append.mp hr with hr | hr
          · exact (mem_perItem_fields hr).2
          · rw [List.mem_singleton] at hr
            subst hr
            simp [trendInsight] at htype
    · rw [analyze_of_no_agg tf research_data h (Or.inl hl)] at hr
      rcases List.mem_append.mp hr with hr | hr
      · exact (mem_perItem_fields hr).2
      · rw [List.mem_singleton] at hr
        subst hr
        simp [fallbackOverallInsight] at htype

theorem claim_C10_witness :
    c10r.named_entities = [] ∧ c10r.relevance_score = some (1/2) :=
  claim_C10_constant_fields tfNone c7items c10r
    (by rw [analyze_of_no_agg tfNone c7items (by simp [c7items]) (Or.inr rfl)]
        exact List.mem_append_left _
          (List.mem_filterMap.mpr
            ⟨RawItem.good "NewsAPI" "T1" "S1" "C1" "u1", by simp [c7items], rfl⟩))
    rfl

/-- Claim C7 (counterexample to the claim as stated): at a concrete invocation
producing 2 per-item insights, 1 top term and 2 clusters, the stored
insight_quality_score of the "overall_trend_analysis" record is 1 (the code
computes min(1, len(insights)/10 + 1/10 + 2/3) with len(insights) = 3, counting
the aggregate record itself), while the claimed formula with insight_count = 2
(the per-item insights) gives 29/30. -/
theorem claim_C7_counterexample :
    (c7items.filterMap itemInsight).length = 2 ∧
    ((analyze_data_and_generate_insights tfOneTerm c7items).filter
        (fun i => i.type == some "overall_trend_analysis")).map Insight.insight_quality_score =
      [some 1] ∧
    claimTrendScore 2 1 2 = 29/30 ∧ ¬ ((1 : ℚ) = 29/30) := by
  have hlen2 : (c7items.filterMap itemInsight).length = 2 := by simp [c7items, itemInsight]
  have htl : (c7items.filterMap itemText).length = 2 := by simp [c7items, itemText]
  have hlt : 1 < (c7items.filterMap itemText).length := by omega
  refine ⟨hlen2, ?_, ?_, by norm_num⟩
  · rw [analyze_of_agg tfOneTerm c7items ["term"] (by simp [c7items]) hlt rfl]
    rw [setScore_append_not_overall _ _ _
      (fun x hx => overall_false_of_type_none x (mem_perItem_fields hx).1)]
    rw [isOverall_trendInsight, if_pos rfl]
    rw [List.filter_append, perItem_filter_eq_nil _ _
      (fun i hi => by simp [hi])]
    have hscore :
        min 1 (((c7items.filterMap itemInsight ++
            [trendInsight ["term"] (min (c7items.filterMap itemText).length 3)]).length : ℚ) / 10 +
          ((["term"] : List String).length : ℚ) / 10 +
          ((min (c7items.filterMap itemText).length 3 : Nat) : ℚ) / 3) = 1 := by
      rw [List.length_append, hlen2, htl]
      norm_num
    rw [htl] at hscore ⊢
    rw [hscore]
    simp [trendInsight]
  · have h1 : ((2 : Nat) : ℚ) / 10 + ((1 : Nat) : ℚ) / 10 + ((2 : Nat) : ℚ) / 3 = 29/30 := by
      norm_num
    rw [claimTrendScore, h1]
    rw [min_eq_right (by norm_num)]

/-- Claim C7 (amended): whenever the aggregate analysis step succeeds (at
least two items produced text and the TF-IDF/KMeans block did not raise), the
emitted "overall_trend_analysis" record's insight_quality_score is recomputed
as min(1, insight_count/10 + len(top_terms)/10 + num_clusters/3) where
insight_count is the TOTAL length of the insights list at that point, i.e. the
number of per-item insights PLUS ONE for the aggregate record itself. -/
theorem claim_C7_amended (tf : List String → Option (List String)) (rd : List RawItem)
    (ts : List String) (h : rd ≠ []) (hlen : 1 < (rd.filterMap itemText).length)
    (htf : tf (rd.filterMap itemText) = some ts) :
    analyze_data_and_generate_insights tf rd =
      rd.filterMap itemInsight ++
        [{ trendInsight ts (min (rd.filterMap itemText).length 3) with
           insight_quality_score := some (min 1
             ((((rd.filterMap itemInsight).length : ℚ) + 1) / 10 + (ts.length : ℚ) / 10 +
               ((min (rd.filterMap itemText).length 3 : Nat) : ℚ) / 3)) }] := by
  rw [analyze_of_agg tf rd ts h hlen htf]
  rw [setScore_append_not_overall _ _ _
    (fun x hx => overall_false_of_type_none x (mem_perItem_fields hx).1)]
  rw [isOverall_trendInsight, if_pos rfl]
  have hcast : ((rd.filterMap itemInsight ++
      [trendInsight ts (min (rd.filterMap itemText).length 3)]).length : ℚ) =
      ((rd.filterMap itemInsight).length : ℚ) + 1 := by
    rw [List.length_append]
    push_cast
    norm_num
  rw [hcast]

theorem claim_C7_amended_witness :
    c7items ≠ [] ∧ 1 < (c7items.filterMap itemText).length ∧
    tfOneTerm (c7items.filterMap itemText) = some ["term"] ∧
    analyze_data_and_generate_insights tfOneTerm c7items =
      c7items.filterMap itemInsight ++
        [{ trendInsight ["term"] (min (c7items.filterMap itemText).length 3) with
           insight_quality_score := some (min 1
             ((((c7items.filterMap itemInsight).length : ℚ) + 1) / 10 +
               ((["term"] : List String).length : ℚ) / 10 +
               ((min (c7items.filterMap itemText).length 3 : Nat) : ℚ) / 3)) }] :=
  ⟨by simp [c7items], by simp [c7items, itemText], rfl,
    claim_C7_amended tfOneTerm c7items ["term"] (by simp [c7items])
      (by simp [c7items, itemText]) rfl⟩

-- ================================================================
-- Claim C6 (top-term ordering), C8 (idea decoding), C9 (fetch quotas)
-- ================================================================

/-- Claim C6: failing input.  With three terms of pairwise-distinct aggregate
weights 1 < 2 < 3, the emitted overall_top_terms list the terms in ASCENDING
weight order (np.argsort sorts ascending and lines 96-99 take its FIRST ten
entries), whereas the ten-highest-by-weight-descending reading gives the
reverse; the comment at line 92 ("Find top TF-IDF terms") documents the
descending intent the code misses. -/
theorem claim_C6_failing :
    overallTopTermsOf c6names c6sums = ["low", "mid", "high"] ∧
    topTermsByWeightDesc c6names c6sums = ["high", "mid", "low"] ∧
    overallTopTermsOf c6names c6sums ≠ topTermsByWeightDesc c6names c6sums := by
  have h1 : overallTopTermsOf c6names c6sums = ["low", "mid", "high"] := by
    norm_num [overallTopTermsOf, argsortAsc, sortByWeightAsc, insertByWeight,
      c6sums, c6names, List.enum, List.enumFrom]
    decide
  have h2 : topTermsByWeightDesc c6names c6sums = ["high", "mid", "low"] := by
    norm_num [topTermsByWeightDesc, sortByWeightDesc, insertByWeightDesc,
      c6sums, c6names, List.enum, List.enumFrom]
    decide
  refine ⟨h1, h2, ?_⟩
  rw [h1, h2]
  simp

/-- Claim C8: failing input.  When the backend text decodes to a dict binding
"ideas" to the string "foo", the generator returns that string itself (a
non-list) to its caller, contradicting its own docstring ("Returns: list");
malformed (non-decodable) backend text, in contrast, does yield []. -/
theorem claim_C8_failing :
    generate_ideas_from_insights c8loads c8insights (some c8text) = PyVal.str "foo" ∧
    (generate_ideas_from_insights c8loads c8insights (some c8text)).isList = false ∧
    generate_ideas_from_insights c8loadsFail c8insights (some "not json") = PyVal.list [] :=
  ⟨rfl, rfl, rfl⟩

/-- Claim C9: counterexample to the claim as stated.  At target_count = 15 the
remainder after the fixed NewsAPI quota of 5 is 10, but the code requests only
max(1, min(10, 5)) = 5 items from ArXiv (research_agent.py line 40 caps the
remainder at 5). -/
theorem claim_C9_counterexample :
    arxiv_individual_count 15 = 5 ∧ max 1 ((15 : ℤ) - 5) = 10 ∧ ((5 : ℤ) ≠ 10) := by
  refine ⟨?_, by norm_num, by norm_num⟩
  norm_num [arxiv_individual_count, news_api_target_count]

/-- Claim C9 (amended): for every target_count, the Source Fetcher requests
exactly 5 items from NewsAPI regardless of target_count, requests from ArXiv
the remainder CLAMPED to the interval [1, 5] (max(1, min(max(0, count-5), 5))),
and returns the NewsAPI results followed by the ArXiv results. -/
theorem claim_C9_amended (newsFetch arxivFetch : ℤ → List RawItem) (count : ℤ) :
    (gather_and_preprocess_data newsFetch arxivFetch count).2 =
      [("NewsAPI", 5), ("ArXiv", max 1 (min (max 0 (count - 5)) 5))] ∧
    (gather_and_preprocess_data newsFetch arxivFetch count).1 =
      newsFetch 5 ++ arxivFetch (max 1 (min (max 0 (count - 5)) 5)) :=
  ⟨rfl, rfl⟩

-- ================================================================
-- Claims C1, C2, C3 (Refinement Orchestrator)
-- ================================================================

theorem analysisQueryAt_zero (q : String) : analysisQueryAt q 0 = q := rfl

theorem analysisQueryAt_one (q : String) : analysisQueryAt q 1 = q ++ refinementSuffix := rfl

theorem orchLoop_top_unfold (f : String → Nat → List Insight) (g : Nat → List Idea)
    (q : String) :
    orchLoop MAX_REFINEMENT_ITERATIONS f g q 0 (MAX_REFINEMENT_ITERATIONS + 1) [] q [] =
      if 0 < 1 ∧ insightQualityOf (f q 0) < REFINEMENT_THRESHOLD then
        ([{ queryUsed := q, genArg := f q 0, score := insightQualityOf (f q 0),
            ideasReturned := g 0,
            finalIdeasAfter := if (g 0).isEmpty then [] else g 0,
            reportCall := if (g 0).isEmpty then none else some (g 0, q) },
          { queryUsed := q ++ refinementSuffix,
            genArg := f q 0 ++ f (q ++ refinementSuffix) 1,
            score := insightQualityOf (f q 0 ++ f (q ++ refinementSuffix) 1),
            ideasReturned := g 1,
            finalIdeasAfter := if (g 1).isEmpty then (if (g 0).isEmpty then [] else g 0) else g 1,
            reportCall := if (g 1).isEmpty then none else some (g 1, q) }],
         if (g 1).isEmpty then (if (g 0).isEmpty then [] else g 0) else g 1)
      else
        ([{ queryUsed := q, genArg := f q 0, score := insightQualityOf (f q 0),
            ideasReturned := g 0,
            finalIdeasAfter := if (g 0).isEmpty then [] else g 0,
            reportCall := if (g 0).isEmpty then none else some (g 0, q) }],
         if (g 0).isEmpty then [] else g 0) := rfl

theorem orchTrace_unfold (f : String → Nat → List Insight) (g : Nat → List Idea) (q : String) :
    orchTrace f g q =
      if 0 < 1 ∧ insightQualityOf (f q 0) < REFINEMENT_THRESHOLD then
        [{ queryUsed := q, genArg := f q 0, score := insightQualityOf (f q 0),
           ideasReturned := g 0,
           finalIdeasAfter := if (g 0).isEmpty then [] else g 0,
           reportCall := if (g 0).isEmpty then none else some (g 0, q) },
         { queryUsed := q ++ refinementSuffix,
           genArg := f q 0 ++ f (q ++ refinementSuffix) 1,
           score := insightQualityOf (f q 0 ++ f (q ++ refinementSuffix) 1),
           ideasReturned := g 1,
           finalIdeasAfter := if (g 1).isEmpty then (if (g 0).isEmpty then [] else g 0) else g 1,
           reportCall := if (g 1).isEmpty then none else some (g 1, q) }]
      else
        [{ queryUsed := q, genArg := f q 0, score := insightQualityOf (f q 0),
           ideasReturned := g 0,
           finalIdeasAfter := if (g 0).isEmpty then [] else g 0,
           reportCall := if (g 0).isEmpty then none else some (g 0, q) }] := by
  unfold orchTrace
  rw [orchLoop_top_unfold, apply_ite Prod.fst]

/-- Claim C1: for every topic, research_count and creativity level (the last
two do not influence the control flow, which the oracles absorb), one
orchestration call executes the fetch-extract-generate loop body at most
MAX_REFINEMENT_ITERATIONS + 1 times, and it proceeds to a further iteration
only when the iteration index is strictly below MAX_REFINEMENT_ITERATIONS and
the insight quality score of that iteration is strictly below
REFINEMENT_THRESHOLD; otherwise it stops. -/
theorem claim_C1_loop_bound (f : String → Nat → List Insight) (g : Nat → List Idea)
    (q : String) :
    (orchTrace f g q).length ≤ MAX_REFINEMENT_ITERATIONS + 1 ∧
    ∀ k r, (orchTrace f g q).get? k = some r → (orchTrace f g q).get? (k + 1) ≠ none →
      k < MAX_REFINEMENT_ITERATIONS ∧ r.score < REFINEMENT_THRESHOLD := by
  rw [orchTrace_unfold]
  by_cases hc : 0 < 1 ∧ insightQualityOf (f q 0) < REFINEMENT_THRESHOLD
  · rw [if_pos hc]
    refine ⟨by simp [MAX_REFINEMENT_ITERATIONS], ?_⟩
    intro k r hk hk1
    match k with
    | 0 =>
        rw [List.get?_cons_zero, Option.some.injEq] at hk
        subst hk
        exact ⟨by simp [MAX_REFINEMENT_ITERATIONS], hc.2⟩
    | 1 => simp at hk1
    | n + 2 => simp at hk
  · rw [if_neg hc]
    refine ⟨by simp [MAX_REFINEMENT_ITERATIONS], ?_⟩
    intro k r hk hk1
    match k with
    | 0 => simp at hk1
    | n + 1 => simp at hk

theorem claim_C1_witness :
    0 < MAX_REFINEMENT_ITERATIONS ∧ wr1.score < REFINEMENT_THRESHOLD := by
  have hc : 0 < 1 ∧ insightQualityOf (wfetch "ai" 0) < REFINEMENT_THRESHOLD := by
    refine ⟨Nat.zero_lt_one, ?_⟩
    norm_num [wfetch, insightQualityOf, REFINEMENT_THRESHOLD]
  refine (claim_C1_loop_bound wfetch wgen "ai").2 0 wr1 ?_ ?_
  · rw [orchTrace_unfold, if_pos hc]
    rfl
  · rw [orchTrace_unfold, if_pos hc]
    simp

/-- Claim C2: on every loop iteration the orchestrator invokes the Idea
Generator on the entire accumulated insight list (everything the Analysis
Agent returned at iterations 0..k, in order), and whenever that call returns a
non-empty idea list, that list becomes the current final_ideas and a fresh
Markdown report is rendered from it against the original topic string, not the
rewritten analysis query. -/
theorem claim_C2_generator_accumulated_report (f : String → Nat → List Insight)
    (g : Nat → List Idea) (q : String) :
    ∀ k r, (orchTrace f g q).get? k = some r →
      r.genArg = accumulatedInsights f q k ∧
      (r.ideasReturned ≠ [] →
        r.finalIdeasAfter = r.ideasReturned ∧ r.reportCall = some (r.ideasReturned, q)) := by
  rw [orchTrace_unfold]
  by_cases hc : 0 < 1 ∧ insightQualityOf (f q 0) < REFINEMENT_THRESHOLD
  · rw [if_pos hc]
    intro k r hk
    match k with
    | 0 =>
        rw [List.get?_cons_zero, Option.some.injEq] at hk
        subst hk
        refine ⟨?_, ?_⟩
        · simp [accumulatedInsights, analysisQueryAt_zero, show List.range 1 = [0] from rfl]
        · intro hne
          have hemp : (g 0).isEmpty = false := by
            simpa [List.isEmpty_iff] using hne
          simp [hemp]
    | 1 =>
        rw [List.get?_cons_succ, List.get?_cons_zero, Option.some.injEq] at hk
        subst hk
        refine ⟨?_, ?_⟩
        · simp [accumulatedInsights, analysisQueryAt_zero, analysisQueryAt_one,
            show List.range 2 = [0, 1] from rfl]
        · intro hne
          have hemp : (g 1).isEmpty = false := by
            simpa [List.isEmpty_iff] using hne
          simp [hemp]
    | n + 2 => simp at hk
  · rw [if_neg hc]
    intro k r hk
    match k with
    | 0 =>
        rw [List.get?_cons_zero, Option.some.injEq] at hk
        subst hk
        refine ⟨?_, ?_⟩
        · simp [accumulatedInsights, analysisQueryAt_zero, show List.range 1 = [0] from rfl]
        · intro hne
          have hemp : (g 0).isEmpty = false := by
            simpa [List.isEmpty_iff] using hne
          simp [hemp]
    | n + 1 => simp at hk

theorem claim_C2_witness :
    wr2.genArg = accumulatedInsights wfetch "ai" 0 ∧
    (wr2.finalIdeasAfter = wr2.ideasReturned ∧
      wr2.reportCall = some (wr2.ideasReturned, "ai")) := by
  have hc : 0 < 1 ∧ insightQualityOf (wfetch "ai" 0) < REFINEMENT_THRESHOLD := by
    refine ⟨Nat.zero_lt_one, ?_⟩
    norm_num [wfetch, insightQualityOf, REFINEMENT_THRESHOLD]
  have h := claim_C2_generator_accumulated_report wfetch wgenOne "ai" 0 wr2
    (by rw [orchTrace_unfold, if_pos hc]; rfl)
  exact ⟨h.1, h.2 (by simp [wr2])⟩

/-- Claim C3 (counterexample to the claim as stated): in an accumulated list
holding two overall-analysis records — the iteration-0 aggregate with score
0.2 followed by the iteration-1 aggregate with score 0.9 — the orchestrator
reads 0.2, the score of the FIRST match in insertion order, not 0.9, the score
of the most recent one; the last two conjuncts realise exactly this list as
the accumulated insight list of the second orchestration iteration. -/
theorem claim_C3_counterexample :
    insightQualityOf c3ex = 1/5 ∧
    lastOverallAnalysisScore c3ex = 9/10 ∧
    ¬ ((1/5 : ℚ) = 9/10) ∧
    ((orchTrace c3fetch wgen "topic").get? 1).map IterRecord.genArg = some c3ex ∧
    ((orchTrace c3fetch wgen "topic").get? 1).map IterRecord.score = some (1/5) := by
  have h0 : insightQualityOf (c3fetch "topic" 0) = 1/5 := rfl
  have hc : 0 < 1 ∧ insightQualityOf (c3fetch "topic" 0) < REFINEMENT_THRESHOLD := by
    refine ⟨Nat.zero_lt_one, ?_⟩
    rw [h0]
    norm_num [REFINEMENT_THRESHOLD]
  refine ⟨rfl, rfl, by norm_num, ?_, ?_⟩ <;>
    · rw [orchTrace_unfold, if_pos hc]
      rfl

/-- Claim C3 (amended): when the orchestrator evaluates insight quality, it
reads the insight_quality_score of the FIRST record in the accumulated insight
list (in insertion order) whose type is "overall_trend_analysis" or
"overall_analysis_summary", using 0.0 both when the record has no score key
and when no such record exists. -/
theorem claim_C3_amended (current_insights : List Insight) :
    insightQualityOf current_insights =
      match current_insights.filter isOverallAnalysisType with
      | [] => 0
      | i :: _ => i.insight_quality_score.getD 0 := by
  induction current_insights with
  | nil => rfl
  | cons i is ih =>
      cases hb : isOverallAnalysisType i
      · simpa [insightQualityOf, List.find?_cons, List.filter_cons, hb] using ih
      · simp [insightQualityOf, List.find?_cons, List.filter_cons, hb]
